import Mathlib

/-!
Shallow embedding of the MittFortum authenticated request pipeline
(custom_components/mittfortum: api/client.py, api/endpoints.py, const.py).

JSON values decoded from response bodies are modelled by the inductive
`Json`; a response body that fails to parse as JSON (Python `ValueError`
from `response.json()`) is modelled as `none : Option Json`.  Python
dictionary/string/list semantics of the `in` operator and of subscription
are reproduced by `pyContains` and `pyGetItemStr`, including the
`TypeError` cases that the source does not catch.

The exception classes of the repository (exceptions.py, which only the
client imports) are modelled from the spec: `APIError` and its subclasses
`InvalidResponseError` and `UnexpectedStatusCodeError` (spec section 7
requires that all taxonomy kinds raised by the pipeline are caught by the
pipeline's `except APIError` dispatcher and propagate verbatim).
-/

/-- Whether the first character list is an initial segment of the
second. -/
def charsIsInit : List Char → List Char → Bool
  | [], _ => true
  | _ :: _, [] => false
  | a :: as, b :: bs => a == b && charsIsInit as bs

/-- Whether `pat` occurs as a contiguous sublist. -/
def charsContains (pat : List Char) : List Char → Bool
  | [] => pat.isEmpty
  | b :: bs => charsIsInit pat (b :: bs) || charsContains pat bs

/-- Python substring test `pat in s` for strings. -/
def strContains (s pat : String) : Bool :=
  charsContains pat.data s.data

/-- Python `s.startswith(pre)`. -/
def strStartsWith (s pre : String) : Bool :=
  charsIsInit pre.data s.data

/-- JSON values, as returned by `response.json()`.  Numbers are modelled
as integers (no claim depends on fractional values); object fields keep
insertion order, as Python dicts do. -/
inductive Json where
  | null : Json
  | bool (b : Bool) : Json
  | num (n : Int) : Json
  | str (s : String) : Json
  | arr (xs : List Json) : Json
  | obj (fields : List (String × Json)) : Json

/-- Python exceptions raised by builtin operations and not defined by the
repository. -/
inductive PyExc where
  | valueError
  | keyError
  | indexError
  | typeError
  | attributeError
deriving DecidableEq

/-- Key lookup in an ordered field list (first binding wins, as in a dict
that has no duplicate keys). -/
def lookupKey (fields : List (String × Json)) (key : String) : Option Json :=
  (fields.find? (fun p => p.1 == key)).map (fun p => p.2)

/-- Python `key in j` for a string `key`: membership for dicts, substring
test for strings, element equality for lists; `TypeError` (`none`) for
scalars. -/
def pyContains (j : Json) (key : String) : Option Bool :=
  match j with
  | .obj fields => some (fields.any (fun p => p.1 == key))
  | .str s => some (strContains s key)
  | .arr xs => some (xs.any (fun x => match x with | .str t => t == key | _ => false))
  | _ => none

/-- Python `j[key]` for a string `key`: dict lookup (`KeyError` when the
key is absent), `TypeError` for every non-dict value. -/
def pyGetItemStr (j : Json) (key : String) : Except PyExc Json :=
  match j with
  | .obj fields =>
    match lookupKey fields key with
    | some v => .ok v
    | none => .error .keyError
  | _ => .error .typeError

/-- Python truthiness of a JSON value (`if json_data:`). -/
def pyTruthy (j : Json) : Bool :=
  match j with
  | .null => false
  | .bool b => b
  | .num n => n != 0
  | .str s => s ≠ ""
  | .arr xs => !xs.isEmpty
  | .obj fields => !fields.isEmpty

/-- Python `j == "lit"` for a string literal: only a string JSON value can
compare equal. -/
def pyEqStr (j : Json) (lit : String) : Bool :=
  match j with
  | .str s => s == lit
  | _ => false

/-- Exception classes raised by the repository: `APIError` and its
subclasses `InvalidResponseError`, `UnexpectedStatusCodeError`
(modelled from the spec, exceptions.py not being under src/).  Every
constructor carries `str(exc)`. -/
inductive ApiException where
  | apiError (msg : String)
  | invalidResponse (msg : String)
  | unexpectedStatus (msg : String)
deriving DecidableEq

/-- `str(exc)` of a repository exception. -/
def ApiException.msg : ApiException → String
  | .apiError m => m
  | .invalidResponse m => m
  | .unexpectedStatus m => m

/-- client.py line 25. -/
def TOKEN_EXPIRED_RETRY_MSG : String := "Token expired - retry required"

/-! ## Response Envelope Decoder (`FortumAPIClient._parse_trpc_response`) -/

/-- The expression `json_data[0] if json_data else {}` together with the
preceding `isinstance(json_data, dict)` test (client.py lines 377-382):
a dict is returned as-is, a falsy value yields `{}`, a truthy list or
string is subscripted with `0`, any other truthy value raises
`TypeError`. -/
def trpcFallback (json_data : Json) : Except PyExc Json :=
  match json_data with
  | .obj fields => .ok (.obj fields)
  | .arr [] => .ok (.obj [])
  | .arr (x :: _) => .ok x
  | .str "" => .ok (.obj [])
  | .str s => .ok (.str (String.singleton (s.get 0)))
  | .num 0 => .ok (.obj [])
  | .num _ => .error .typeError
  | .bool false => .ok (.obj [])
  | .bool true => .error .typeError
  | .null => .ok (.obj [])

/-- Body of `_parse_trpc_response` after `response.json()` succeeded
(client.py lines 371-382), with the Python exception flow written as
explicit matches: a failed membership test on a scalar raises
`TypeError`; each subscription may raise as described at
`pyGetItemStr`. -/
def parse_trpc_core (json_data : Json) : Except PyExc Json :=
  match json_data with
  | .arr (result :: _) =>
    match pyContains result "result" with
    | none => .error .typeError
    | some false => trpcFallback json_data
    | some true =>
      match pyGetItemStr result "result" with
      | .error e => .error e
      | .ok r1 =>
        match pyContains r1 "data" with
        | none => .error .typeError
        | some false => trpcFallback json_data
        | some true =>
          match pyGetItemStr result "result" with
          | .error e => .error e
          | .ok r1b =>
            match pyGetItemStr r1b "data" with
            | .error e => .error e
            | .ok d => pyGetItemStr d "json"
  | _ => trpcFallback json_data

/-- Outcome of `_parse_trpc_response`: either the decoded payload, an
`InvalidResponseError` (the method catches `ValueError`, `KeyError` and
`IndexError`), or an uncaught Python exception escaping the method. -/
inductive TrpcFailure where
  | invalidResponse (cause : PyExc)
  | uncaught (e : PyExc)
deriving DecidableEq

/-- `FortumAPIClient._parse_trpc_response` (client.py lines 366-385).
`body` is the result of `response.json()`, `none` when the body is not
parseable as JSON. -/
def parse_trpc_response (body : Option Json) : Except TrpcFailure Json :=
  match body with
  | none => .error (.invalidResponse .valueError)
  | some j =>
    match parse_trpc_core j with
    | .ok v => .ok v
    | .error .valueError => .error (.invalidResponse .valueError)
    | .error .keyError => .error (.invalidResponse .keyError)
    | .error .indexError => .error (.invalidResponse .indexError)
    | .error e => .error (.uncaught e)

/-! ## Cookie Domain Router (`FortumAPIClient._get_cookie_domain`) -/

/-- `FortumAPIClient._get_cookie_domain` (client.py lines 206-228). -/
def get_cookie_domain (cookie_name : String) : String :=
  if cookie_name == "amlbcookie" || cookie_name == "18dddeef3f61363" then
    ".sso.fortum.com"
  else if strStartsWith cookie_name "__Host-" || strStartsWith cookie_name "__Secure-"
      || cookie_name == "NEXT_LOCALE" then
    "www.fortum.com"
  else
    "www.fortum.com"

/-! ## Status-code handlers (`FortumAPIClient._handle_response` and helpers) -/

/-- An HTTP response as seen by `_handle_response`: status code, the
`Location` header when present, the result of `response.json()` (`none`
when the text does not parse as JSON), and `response.text`. -/
structure HttpResponse where
  status_code : Nat
  location : Option String
  body : Option Json
  text : String

/-- An exception escaping a handler: either a repository exception
(`APIError` or a subclass) or an uncaught Python builtin exception. -/
inductive RaisedExc where
  | api (e : ApiException)
  | py (e : PyExc)
deriving DecidableEq

/-- `FortumAPIClient._handle_redirect_response` (client.py lines
387-401), as a function of the `Location` header value. -/
def handle_redirect_response (location : String) : ApiException :=
  if strContains location "sign-out" && strContains location "TokenExpired" then
    .apiError TOKEN_EXPIRED_RETRY_MSG
  else
    .apiError ("Unexpected redirect to: " ++ location)

/-- `FortumAPIClient._handle_unauthorized_response` (client.py lines
403-433), as a function of the outcome of
`auth_client.refresh_access_token()` (`none` when the refresh returned
normally, `some e` when it raised `e`). -/
def handle_unauthorized_response (refreshExc : Option ApiException) : ApiException :=
  match refreshExc with
  | none => .apiError TOKEN_EXPIRED_RETRY_MSG
  | some e =>
    if strContains e.msg TOKEN_EXPIRED_RETRY_MSG then e
    else .apiError "Authentication failed - re-authentication required"

/-- Intermediate outcome of the `try` block of
`_handle_server_error_response` (client.py lines 438-462). -/
inductive ServerCore where
  | raisedApi (e : ApiException)
  | raisedPy (e : PyExc)
  | fellThrough
deriving DecidableEq

/-- The `try` block of `_handle_server_error_response`: decode the
batched-RPC error envelope `[0].error.json.\x7bmessage, code\x7d`,
reproducing the Python `in`/subscript/`.get` semantics (a `.get` call on
a non-dict raises `AttributeError`). -/
def handle_server_error_core (body : Option Json) : ServerCore :=
  match body with
  | none => .raisedPy .valueError
  | some (.arr (error_item :: _)) =>
    match pyContains error_item "error" with
    | none => .raisedPy .typeError
    | some false => .fellThrough
    | some true =>
      match pyGetItemStr error_item "error" with
      | .error e => .raisedPy e
      | .ok error_details =>
        match pyContains error_details "json" with
        | none => .raisedPy .typeError
        | some false => .fellThrough
        | some true =>
          match pyGetItemStr error_details "json" with
          | .error e => .raisedPy e
          | .ok (.obj fields) =>
            let error_msg := (lookupKey fields "message").getD (.str "Unknown error")
            if pyEqStr error_msg "INTERNAL_SERVER_ERROR" then
              .raisedApi (.apiError
                "Server error - try reducing date range or changing resolution")
            else
              match error_msg with
              | .str m => .raisedApi (.apiError ("Server error: " ++ m))
              | _ => .raisedApi (.apiError "Server error: <non-string message>")
          | .ok _ => .raisedPy .attributeError
  | some _ => .fellThrough

/-- `FortumAPIClient._handle_server_error_response` (client.py lines
435-465): the `try` block above, with `ValueError` and `KeyError`
falling through to the generic message, every other Python exception
escaping uncaught, and the raised `APIError`s passing through. -/
def handle_server_error_response (body : Option Json) : RaisedExc :=
  match handle_server_error_core body with
  | .raisedApi e => .api e
  | .raisedPy .valueError => .api (.apiError "Server internal error - try again later")
  | .raisedPy .keyError => .api (.apiError "Server internal error - try again later")
  | .raisedPy e => .py e
  | .fellThrough => .api (.apiError "Server internal error - try again later")

/-- `FortumAPIClient._handle_response` (client.py lines 467-494).
`refreshExc` is the outcome of the token refresh performed by the 401
handler. -/
def handle_response (refreshExc : Option ApiException) (r : HttpResponse) :
    Except RaisedExc HttpResponse :=
  if r.status_code == 307 then
    .error (.api (handle_redirect_response ((r.location).getD "")))
  else if r.status_code == 401 then
    .error (.api (handle_unauthorized_response refreshExc))
  else if r.status_code == 403 then
    .error (.api (.apiError "Access forbidden - authentication may be required"))
  else if r.status_code == 500 then
    .error (handle_server_error_response r.body)
  else if r.status_code != 200 then
    .error (.api (.unexpectedStatus
      ("Unexpected status code " ++ toString r.status_code ++ ": " ++ r.text)))
  else if r.text == "" then
    .error (.api (.invalidResponse "Empty response from API"))
  else
    .ok r

/-! ## Authenticated Request Pipeline (`FortumAPIClient._get` and
`FortumAPIClient._handle_retry_logic`) -/

/-- Backoff delay computed in `_handle_retry_logic` (client.py lines
331-340), in seconds, as an exact rational: `5.0 + retry_count * 5.0`
for session-based auth, `0.1 * 2 ** retry_count` for OAuth tokens
(both exactly representable at the exponents that occur). -/
def retry_delay (is_session_based : Bool) (retry_count : Nat) : ℚ :=
  if is_session_based then 5 + retry_count * 5 else (1 / 10) * 2 ^ retry_count

/-- Environment of one logical request: the credential mode, the response
returned by the physical GET of each attempt (indexed by `retry_count`),
the outcome of the token refresh triggered by a 401 at each attempt, and
the outcome of the pre-flight `_ensure_valid_token` at each attempt
(`none` = returned normally). -/
structure PipelineEnv where
  refresh_token : Option String
  response : Nat → HttpResponse
  refreshExc : Nat → Option ApiException
  ensureExc : Nat → Option ApiException

/-- `auth_client.refresh_token == "session_based"` (client.py lines 239
and 324). -/
def PipelineEnv.is_session_based (env : PipelineEnv) : Bool :=
  env.refresh_token == some "session_based"

/-- Attempt ceiling of `_get` (client.py line 240). -/
def PipelineEnv.max_retries (env : PipelineEnv) : Nat :=
  if env.is_session_based then 5 else 2

/-- Retry ceiling of `_handle_retry_logic` (client.py line 325). -/
def PipelineEnv.max_retries_for_token_error (env : PipelineEnv) : Nat :=
  if env.is_session_based then 4 else 1

/-- Trace of one logical request: the `retry_count` values of the
physical attempts actually issued, the backoff delays slept between
consecutive attempts, and the terminal outcome. -/
structure RunTrace where
  attempts : List Nat
  delays : List ℚ
  result : Except ApiException HttpResponse

/-- `FortumAPIClient._get` together with `_handle_retry_logic`
(client.py lines 234-364), instrumented with the attempt/delay trace.
A non-`APIError` exception escaping `_handle_response` is wrapped as
`APIError("GET request failed")` by the `except Exception` clause; an
`APIError` goes through `_handle_retry_logic`, which retries exactly
when `str(exc)` equals `TOKEN_EXPIRED_RETRY_MSG` and `retry_count` is
below the mode's retry ceiling, and otherwise re-raises verbatim. -/
def get_req_aux (env : PipelineEnv) (url : String) (retry_count : Nat) : RunTrace :=
  if retry_count ≥ env.max_retries then
    { attempts := [], delays := [],
      result := .error (.apiError
        ("Maximum retry attempts (" ++ toString env.max_retries ++ ") exceeded for "
          ++ url)) }
  else
    match env.ensureExc retry_count with
    | some e => { attempts := [], delays := [], result := .error e }
    | none =>
      match handle_response (env.refreshExc retry_count) (env.response retry_count) with
      | .ok r => { attempts := [retry_count], delays := [], result := .ok r }
      | .error (.py _) =>
        { attempts := [retry_count], delays := [],
          result := .error (.apiError "GET request failed") }
      | .error (.api e) =>
        if h : e.msg = TOKEN_EXPIRED_RETRY_MSG
            ∧ retry_count < env.max_retries_for_token_error then
          let rest := get_req_aux env url (retry_count + 1)
          { attempts := retry_count :: rest.attempts,
            delays := retry_delay env.is_session_based retry_count :: rest.delays,
            result := rest.result }
        else
          { attempts := [retry_count], delays := [], result := .error e }
termination_by env.max_retries_for_token_error + 1 - retry_count
decreasing_by
  rcases h with ⟨-, h2⟩
  omega

/-- `FortumAPIClient._get(url)` as invoked by callers (`retry_count = 0`). -/
def get_req (env : PipelineEnv) (url : String) : RunTrace :=
  get_req_aux env url 0

/-! ## Dates (`datetime` values used by the Adaptive Query Executor) -/

/-- Day number of a proleptic-Gregorian civil date, with day 0 =
1970-01-01 (standard civil-from-days arithmetic; all intermediate
divisions are floor divisions of a positive divisor). -/
def days_from_civil (y m d : Int) : Int :=
  let y2 : Int := if m ≤ 2 then y - 1 else y
  let era : Int := Int.ediv y2 400
  let yoe : Int := y2 - era * 400
  let mp : Int := Int.emod (m + 9) 12
  let doy : Int := Int.ediv (153 * mp + 2) 5 + d - 1
  let doe : Int := yoe * 365 + Int.ediv yoe 4 - Int.ediv yoe 100 + doy
  era * 146097 + doe - 719468

/-- Civil date `(year, month, day)` of a day number (inverse of
`days_from_civil`). -/
def civil_from_days (z0 : Int) : Int × Int × Int :=
  let z : Int := z0 + 719468
  let era : Int := Int.ediv z 146097
  let doe : Int := z - era * 146097
  let yoe : Int :=
    Int.ediv (doe - Int.ediv doe 1460 + Int.ediv doe 36524 - Int.ediv doe 146096) 365
  let y : Int := yoe + era * 400
  let doy : Int := doe - (365 * yoe + Int.ediv yoe 4 - Int.ediv yoe 100)
  let mp : Int := Int.ediv (5 * doy + 2) 153
  let d : Int := doy - Int.ediv (153 * mp + 2) 5 + 1
  let m : Int := mp + (if mp < 10 then 3 else -9)
  (if m ≤ 2 then y + 1 else y, m, d)

/-- A Python `datetime`, at second resolution: civil day number and
seconds within the day. -/
structure PyDateTime where
  days : Int
  secs : Int
deriving DecidableEq

/-- `dt - timedelta(days=n)`. -/
def PyDateTime.subDays (dt : PyDateTime) (n : Int) : PyDateTime :=
  { days := dt.days - n, secs := dt.secs }

/-- `dt.replace(day=1)`: first day of `dt`'s month, same time of day. -/
def PyDateTime.replaceDay1 (dt : PyDateTime) : PyDateTime :=
  let c := civil_from_days dt.days
  { days := days_from_civil c.1 c.2.1 1, secs := dt.secs }

/-! ## Adaptive Query Executor (`FortumAPIClient.get_time_series_data`) -/

/-- Arguments of one `_fetch_time_series_data` call. -/
structure TsRequest where
  metering_point_nos : List String
  from_date : PyDateTime
  to_date : PyDateTime
  resolution : String
deriving DecidableEq

/-- Environment of the executor: the outcome of
`_fetch_time_series_data` for each argument tuple.  `datetime.now()` is
modelled as one fixed instant `now` for the whole logical operation. -/
structure TsEnv (α : Type) where
  fetch : TsRequest → Except ApiException α

/-- The tier-1 request of `get_time_series_data` (client.py lines
104-114): defaults are `datetime.now().replace(day=1) -
timedelta(days=90)` and `datetime.now()`. -/
def tier1_request (now : PyDateTime) (mps : List String)
    (from_date? to_date? : Option PyDateTime) (resolution : String) : TsRequest :=
  { metering_point_nos := mps,
    from_date := from_date?.getD (now.replaceDay1.subDays 90),
    to_date := to_date?.getD now,
    resolution := resolution }

/-- The tier-2 request: last 30 days (client.py lines 121-126). -/
def tier2_request (now : PyDateTime) (mps : List String) (resolution : String) :
    TsRequest :=
  { metering_point_nos := mps, from_date := now.subDays 30, to_date := now,
    resolution := resolution }

/-- The tier-3 request: last 7 days (client.py lines 132-136). -/
def tier3_request (now : PyDateTime) (mps : List String) (resolution : String) :
    TsRequest :=
  { metering_point_nos := mps, from_date := now.subDays 7, to_date := now,
    resolution := resolution }

/-- The string test of client.py line 116 deciding whether a failure
enters the degradation ladder. -/
def server_error_trigger (msg : String) : Bool :=
  strContains msg "Server error" || strContains msg "reducing date range"

/-- `FortumAPIClient.get_time_series_data` (client.py lines 96-138),
instrumented with the list of `_fetch_time_series_data` calls issued. -/
def get_time_series_data {α : Type} (env : TsEnv α) (now : PyDateTime)
    (mps : List String) (from_date? to_date? : Option PyDateTime)
    (resolution : String) : List TsRequest × Except ApiException α :=
  let r1 := tier1_request now mps from_date? to_date? resolution
  match env.fetch r1 with
  | .ok res => ([r1], .ok res)
  | .error exc =>
    if server_error_trigger exc.msg then
      let r2 := tier2_request now mps resolution
      match env.fetch r2 with
      | .ok res => ([r1, r2], .ok res)
      | .error _ =>
        let r3 := tier3_request now mps resolution
        ([r1, r2, r3], env.fetch r3)
    else ([r1], .error exc)

/-- Modelled from the spec: "Default range when unspecified: from the
first day of the month 90 days ago, to now" — the first day of the month
that contains the instant 90 days before `now`.  Stated for comparison
with the start date the code computes. -/
def spec_default_from_date (now : PyDateTime) : PyDateTime :=
  (now.subDays 90).replaceDay1

/-! ## Token Lifecycle Gate (`FortumAPIClient._ensure_valid_token`) -/

/-- Python truthiness of an optional string attribute (`None` and the
empty string are falsy). -/
def pyTruthyStr : Option String → Bool
  | none => false
  | some s => s ≠ ""

/-- State read from the auth collaborator by `_ensure_valid_token`,
together with the outcome of a refresh attempt. -/
structure AuthClientState where
  refresh_token : Option String
  needs_renewal : Bool
  is_token_expired : Bool
  refresh_fails : Bool

/-- Operations `_ensure_valid_token` can delegate to the collaborator. -/
inductive AuthOp where
  | refreshAccessToken
  | authenticate
deriving DecidableEq

/-- `FortumAPIClient._ensure_valid_token` (client.py lines 496-536), as
the sequence of collaborator operations invoked. -/
def ensure_valid_token (st : AuthClientState) (proactive : Bool) : List AuthOp :=
  let needs_refresh :=
    if proactive && st.needs_renewal then true
    else if st.is_token_expired then true
    else false
  if needs_refresh then
    if pyTruthyStr st.refresh_token && (st.refresh_token != some "session_based") then
      if st.refresh_fails then [.refreshAccessToken, .authenticate]
      else [.refreshAccessToken]
    else [.authenticate]
  else []

/-! ## Locale-keyed URL builders (const.py and api/endpoints.py).
`ValueError` is modelled as the `Except` error case carrying the
exception's message. -/

/-- `get_fortum_base_url` (const.py lines 18-24). -/
def get_fortum_base_url (locale : String) : Except String String :=
  if locale == "SV" then .ok "https://www.fortum.com/se/el"
  else if locale == "FI" then .ok "https://www.fortum.com/fi/sahkoa"
  else .error ("Unsupported locale: " ++ locale)

/-- `get_api_base_url` (const.py lines 25-26). -/
def get_api_base_url (locale : String) : Except String String :=
  (get_fortum_base_url locale).map (fun s => s ++ "/api")

/-- `get_trpc_base_url` (const.py lines 27-28). -/
def get_trpc_base_url (locale : String) : Except String String :=
  (get_api_base_url locale).map (fun s => s ++ "/trpc")

/-- `get_session_url` (const.py lines 40-41). -/
def get_session_url (locale : String) : Except String String :=
  (get_api_base_url locale).map (fun s => s ++ "/auth/session")

/-- `get_time_series_base_url` (const.py lines 44-45). -/
def get_time_series_base_url (locale : String) : Except String String :=
  (get_trpc_base_url locale).map
    (fun s => s ++ "/loggedIn.timeSeries.listTimeSeries")

/-- `get_cost_unit` (const.py lines 92-98). -/
def get_cost_unit (locale : String) : Except String String :=
  if locale == "SV" then .ok "SEK"
  else if locale == "FI" then .ok "EUR"
  else .error ("Unsupported locale: " ++ locale)

/-- Zero-pad a nonnegative integer to at least two digits. -/
def pad2 (n : Int) : String :=
  if n < 10 then "0" ++ toString n else toString n

/-- Zero-pad a nonnegative integer to at least four digits (Python
prints years as `%04d`). -/
def pad4 (n : Int) : String :=
  if n < 10 then "000" ++ toString n
  else if n < 100 then "00" ++ toString n
  else if n < 1000 then "0" ++ toString n
  else toString n

/-- `datetime.isoformat()` at second resolution:
`YYYY-MM-DDTHH:MM:SS`. -/
def PyDateTime.isoformat (dt : PyDateTime) : String :=
  let c := civil_from_days dt.days
  let hh := Int.ediv dt.secs 3600
  let mm := Int.ediv (Int.emod dt.secs 3600) 60
  let ss := Int.emod dt.secs 60
  pad4 c.1 ++ "-" ++ pad2 c.2.1 ++ "-" ++ pad2 c.2.2 ++ "T"
    ++ pad2 hh ++ ":" ++ pad2 mm ++ ":" ++ pad2 ss

/-- `json.dumps` escaping of one character inside a string literal
(ASCII control characters and the two mandatory escapes). -/
def jsonEscapeChar (c : Char) : String :=
  if c = Char.ofNat 34 then "\\\""
  else if c = '\\' then "\\\\"
  else if c = '\n' then "\\n"
  else if c = '\t' then "\\t"
  else if c = '\r' then "\\r"
  else String.singleton c

/-- `json.dumps` of a string literal. -/
def jsonDumpsStr (s : String) : String :=
  "\"" ++ String.join (s.toList.map jsonEscapeChar) ++ "\""

mutual
/-- `json.dumps(·, separators=(",", ":"))`: compact JSON serialization,
object fields in insertion order. -/
def jsonDumps : Json → String
  | .null => "null"
  | .bool true => "true"
  | .bool false => "false"
  | .num n => toString n
  | .str s => jsonDumpsStr s
  | .arr xs => "[" ++ String.intercalate "," (jsonDumpsList xs) ++ "]"
  | .obj fields => "\x7b" ++ String.intercalate "," (jsonDumpsObj fields) ++ "\x7d"

/-- Serialize the elements of a JSON array. -/
def jsonDumpsList : List Json → List String
  | [] => []
  | x :: xs => jsonDumps x :: jsonDumpsList xs

/-- Serialize the fields of a JSON object. -/
def jsonDumpsObj : List (String × Json) → List String
  | [] => []
  | (k, v) :: fs => (jsonDumpsStr k ++ ":" ++ jsonDumps v) :: jsonDumpsObj fs
end

/-- `urllib.parse.quote` byte classification: unreserved characters and
the default safe character `/` pass through. -/
def quoteSafeByte (n : Nat) : Bool :=
  (65 ≤ n && n ≤ 90) || (97 ≤ n && n ≤ 122) || (48 ≤ n && n ≤ 57)
    || n == 95 || n == 46 || n == 45 || n == 126 || n == 47

/-- Hexadecimal digit (uppercase). -/
def hexDigit (n : Nat) : Char :=
  if n < 10 then Char.ofNat (48 + n) else Char.ofNat (55 + n)

/-- Percent-encode one byte. -/
def quoteByte (b : UInt8) : String :=
  let n := b.toNat
  if quoteSafeByte n then String.singleton (Char.ofNat n)
  else "%" ++ String.singleton (hexDigit (n / 16)) ++ String.singleton (hexDigit (n % 16))

/-- `urllib.parse.quote(s)` over the UTF-8 bytes of `s`. -/
def urllib_quote (s : String) : String :=
  String.join (s.toUTF8.toList.map quoteByte)

/-- The tRPC `input` object built by `APIEndpoints.get_time_series_url`
(endpoints.py lines 59-68). -/
def time_series_input (mps : List String) (from_date to_date : PyDateTime)
    (resolution : String) : Json :=
  .obj [("0", .obj [("json", .obj
    [("meteringPointNo", .arr (mps.map .str)),
     ("fromDate", .str (from_date.isoformat ++ "Z")),
     ("toDate", .str (to_date.isoformat ++ "Z")),
     ("resolution", .str resolution)])])]

/-- `APIEndpoints.get_time_series_url` (endpoints.py lines 50-73). -/
def get_time_series_url (locale : String) (mps : List String)
    (from_date to_date : PyDateTime) (resolution : String) :
    Except String String :=
  (get_time_series_base_url locale).map (fun base =>
    base ++ "?batch=1&input="
      ++ urllib_quote (jsonDumps (time_series_input mps from_date to_date resolution)))

/-! ## Helper lemmas -/

/-- A successful attempt terminates the pipeline. -/
theorem get_req_aux_ok (env : PipelineEnv) (url : String) (rc : Nat)
    (r : HttpResponse) (hmax : rc < env.max_retries) (hens : env.ensureExc rc = none)
    (hresp : handle_response (env.refreshExc rc) (env.response rc) = .ok r) :
    get_req_aux env url rc = { attempts := [rc], delays := [], result := .ok r } := by
  rw [get_req_aux]
  simp [Nat.not_le.mpr hmax, hens, hresp]

/-- A token-expired `APIError` below the retry ceiling triggers one
backoff delay and a recursive attempt. -/
theorem get_req_aux_retry (env : PipelineEnv) (url : String) (rc : Nat)
    (e : ApiException) (hmax : rc < env.max_retries) (hens : env.ensureExc rc = none)
    (hresp : handle_response (env.refreshExc rc) (env.response rc) = .error (.api e))
    (hmsg : e.msg = TOKEN_EXPIRED_RETRY_MSG)
    (hrc : rc < env.max_retries_for_token_error) :
    get_req_aux env url rc =
      { attempts := rc :: (get_req_aux env url (rc + 1)).attempts,
        delays := retry_delay env.is_session_based rc
          :: (get_req_aux env url (rc + 1)).delays,
        result := (get_req_aux env url (rc + 1)).result } := by
  rw [get_req_aux]
  simp [Nat.not_le.mpr hmax, hens, hresp, hmsg, hrc]

/-- An `APIError` that does not satisfy the retry condition is re-raised
verbatim after a single attempt. -/
theorem get_req_aux_stop (env : PipelineEnv) (url : String) (rc : Nat)
    (e : ApiException) (hmax : rc < env.max_retries) (hens : env.ensureExc rc = none)
    (hresp : handle_response (env.refreshExc rc) (env.response rc) = .error (.api e))
    (hstop : ¬(e.msg = TOKEN_EXPIRED_RETRY_MSG
      ∧ rc < env.max_retries_for_token_error)) :
    get_req_aux env url rc = { attempts := [rc], delays := [], result := .error e } := by
  rw [get_req_aux]
  simp only [Nat.not_le.mpr hmax, if_false, hens, hresp]
  rw [dif_neg hstop]

/-- A non-`APIError` exception escaping `_handle_response` is wrapped as
`APIError("GET request failed")` and not retried. -/
theorem get_req_aux_pyerr (env : PipelineEnv) (url : String) (rc : Nat)
    (e : PyExc) (hmax : rc < env.max_retries) (hens : env.ensureExc rc = none)
    (hresp : handle_response (env.refreshExc rc) (env.response rc) = .error (.py e)) :
    get_req_aux env url rc =
      { attempts := [rc], delays := [],
        result := .error (.apiError "GET request failed") } := by
  rw [get_req_aux]
  simp [Nat.not_le.mpr hmax, hens, hresp]

/-- `_handle_response` on a 401 response delegates to the unauthorized
handler. -/
theorem handle_response_401 (refreshExc : Option ApiException) (r : HttpResponse)
    (h : r.status_code = 401) :
    handle_response refreshExc r =
      .error (.api (handle_unauthorized_response refreshExc)) := by
  simp [handle_response, h]

/-- `_handle_response` on a 307 response delegates to the redirect
handler. -/
theorem handle_response_307 (refreshExc : Option ApiException) (r : HttpResponse)
    (h : r.status_code = 307) :
    handle_response refreshExc r =
      .error (.api (handle_redirect_response ((r.location).getD ""))) := by
  simp [handle_response, h]

/-- `_handle_response` on a 500 response delegates to the server-error
handler. -/
theorem handle_response_500 (refreshExc : Option ApiException) (r : HttpResponse)
    (h : r.status_code = 500) :
    handle_response refreshExc r = .error (handle_server_error_response r.body) := by
  simp [handle_response, h]

/-- `_handle_response` on a 200 response with a non-empty body returns
the response. -/
theorem handle_response_200 (refreshExc : Option ApiException) (r : HttpResponse)
    (h : r.status_code = 200) (ht : r.text ≠ "") :
    handle_response refreshExc r = .ok r := by
  simp [handle_response, h, ht]

/-- The pipeline error message of an unexpected redirect never equals the
token-expired retry signal. -/
theorem unexpected_redirect_ne_token (t : String) :
    "Unexpected redirect to: " ++ t ≠ TOKEN_EXPIRED_RETRY_MSG := by
  intro h
  have h2 := congrArg String.data h
  rw [String.data_append] at h2
  have h3 := congrArg List.head? h2
  rw [show "Unexpected redirect to: ".data = 'U' :: "nexpected redirect to: ".data
    from rfl] at h3
  simp [TOKEN_EXPIRED_RETRY_MSG] at h3

/-- A key found by `lookupKey` makes the membership test positive. -/
theorem lookup_any {fields : List (String × Json)} {k : String} {v : Json}
    (h : lookupKey fields k = some v) :
    fields.any (fun p => p.1 == k) = true := by
  unfold lookupKey at h
  rcases ho : fields.find? (fun p => p.1 == k) with - | p
  · rw [ho] at h
    simp at h
  · have hp := List.find?_some ho
    have hm := List.mem_of_find?_eq_some ho
    exact List.any_eq_true.mpr ⟨p, hm, hp⟩

/-- In session-cookie-mode the attempt ceiling is 5 and the retry
ceiling is 4. -/
theorem session_ceilings (env : PipelineEnv)
    (h : env.refresh_token = some "session_based") :
    env.is_session_based = true ∧ env.max_retries = 5
      ∧ env.max_retries_for_token_error = 4 := by
  have hs : env.is_session_based = true := by
    simp [PipelineEnv.is_session_based, h]
  exact ⟨hs, by simp [PipelineEnv.max_retries, hs],
    by simp [PipelineEnv.max_retries_for_token_error, hs]⟩

/-- In credential-token-mode the attempt ceiling is 2 and the retry
ceiling is 1. -/
theorem oauth_ceilings (env : PipelineEnv) (h : env.is_session_based = false) :
    env.max_retries = 2 ∧ env.max_retries_for_token_error = 1 :=
  ⟨by simp [PipelineEnv.max_retries, h],
   by simp [PipelineEnv.max_retries_for_token_error, h]⟩

/-- Full trace of a session-cookie-mode logical request whose physical
attempts all return 401 (with succeeding token refreshes): five
attempts, four backoff delays, and the re-raised token-expired
`APIError`. -/
theorem all401_session_run (env : PipelineEnv) (url : String)
    (hmode : env.refresh_token = some "session_based")
    (h401 : ∀ n, (env.response n).status_code = 401)
    (href : ∀ n, env.refreshExc n = none)
    (hens : ∀ n, env.ensureExc n = none) :
    get_req env url =
      { attempts := [0, 1, 2, 3, 4],
        delays := [5, 10, 15, 20],
        result := .error (.apiError TOKEN_EXPIRED_RETRY_MSG) } := by
  obtain ⟨hs, hmax, hm4⟩ := session_ceilings env hmode
  have hresp : ∀ n, handle_response (env.refreshExc n) (env.response n)
      = .error (.api (.apiError TOKEN_EXPIRED_RETRY_MSG)) := fun n => by
    rw [href n, handle_response_401 _ _ (h401 n)]; rfl
  have h4 : get_req_aux env url 4
      = ⟨[4], [], .error (.apiError TOKEN_EXPIRED_RETRY_MSG)⟩ := by
    apply get_req_aux_stop env url 4 _ ?_ (hens 4) (hresp 4) ?_
    · rw [hmax]; norm_num
    · rintro ⟨-, hlt⟩; rw [hm4] at hlt; omega
  have h3 : get_req_aux env url 3
      = ⟨[3, 4], [retry_delay true 3], .error (.apiError TOKEN_EXPIRED_RETRY_MSG)⟩ := by
    rw [get_req_aux_retry env url 3 _ (by rw [hmax]; norm_num) (hens 3) (hresp 3) rfl
      (by rw [hm4]; norm_num), h4, hs]
  have h2 : get_req_aux env url 2
      = ⟨[2, 3, 4], [retry_delay true 2, retry_delay true 3],
          .error (.apiError TOKEN_EXPIRED_RETRY_MSG)⟩ := by
    rw [get_req_aux_retry env url 2 _ (by rw [hmax]; norm_num) (hens 2) (hresp 2) rfl
      (by rw [hm4]; norm_num), h3, hs]
  have h1 : get_req_aux env url 1
      = ⟨[1, 2, 3, 4], [retry_delay true 1, retry_delay true 2, retry_delay true 3],
          .error (.apiError TOKEN_EXPIRED_RETRY_MSG)⟩ := by
    rw [get_req_aux_retry env url 1 _ (by rw [hmax]; norm_num) (hens 1) (hresp 1) rfl
      (by rw [hm4]; norm_num), h2, hs]
  have h0 : get_req_aux env url 0
      = ⟨[0, 1, 2, 3, 4],
          [retry_delay true 0, retry_delay true 1, retry_delay true 2,
            retry_delay true 3],
          .error (.apiError TOKEN_EXPIRED_RETRY_MSG)⟩ := by
    rw [get_req_aux_retry env url 0 _ (by rw [hmax]; norm_num) (hens 0) (hresp 0) rfl
      (by rw [hm4]; norm_num), h1, hs]
  rw [get_req, h0]
  norm_num [retry_delay]

/-- Full trace of a credential-token-mode logical request whose physical
attempts all return 401: two attempts, one backoff delay of 0.1 s, and
the re-raised token-expired `APIError`. -/
theorem all401_oauth_run (env : PipelineEnv) (url : String)
    (hmode : env.is_session_based = false)
    (h401 : ∀ n, (env.response n).status_code = 401)
    (href : ∀ n, env.refreshExc n = none)
    (hens : ∀ n, env.ensureExc n = none) :
    get_req env url =
      { attempts := [0, 1], delays := [1 / 10],
        result := .error (.apiError TOKEN_EXPIRED_RETRY_MSG) } := by
  obtain ⟨hmax, hm1⟩ := oauth_ceilings env hmode
  have hresp : ∀ n, handle_response (env.refreshExc n) (env.response n)
      = .error (.api (.apiError TOKEN_EXPIRED_RETRY_MSG)) := fun n => by
    rw [href n, handle_response_401 _ _ (h401 n)]; rfl
  have h1 : get_req_aux env url 1
      = ⟨[1], [], .error (.apiError TOKEN_EXPIRED_RETRY_MSG)⟩ := by
    apply get_req_aux_stop env url 1 _ ?_ (hens 1) (hresp 1) ?_
    · rw [hmax]; norm_num
    · rintro ⟨-, hlt⟩; rw [hm1] at hlt; omega
  have h0 : get_req_aux env url 0
      = ⟨[0, 1], [retry_delay false 0],
          .error (.apiError TOKEN_EXPIRED_RETRY_MSG)⟩ := by
    rw [get_req_aux_retry env url 0 _ (by rw [hmax]; norm_num) (hens 0) (hresp 0) rfl
      (by rw [hm1]; norm_num), h1, hmode]
  rw [get_req, h0]
  norm_num [retry_delay]

/-- A 401 response used by the concrete pipeline environments. -/
def resp401 : HttpResponse :=
  { status_code := 401, location := none, body := none, text := "" }

/-- Session-cookie-mode environment whose every attempt returns 401 and
whose token operations all succeed. -/
def all401_session_env : PipelineEnv :=
  { refresh_token := some "session_based", response := fun _ => resp401,
    refreshExc := fun _ => none, ensureExc := fun _ => none }

/-- Credential-token-mode environment whose every attempt returns 401
and whose token operations all succeed. -/
def all401_oauth_env : PipelineEnv :=
  { refresh_token := some "real-refresh-token", response := fun _ => resp401,
    refreshExc := fun _ => none, ensureExc := fun _ => none }

/-- C1: when every physical attempt returns HTTP 401 (and token
refreshes succeed), the pipeline makes exactly the mode's ceiling of
attempts — five in session-cookie-mode, two in credential-token-mode —
and then fails; amended: the terminal failure is the re-raised
`APIError("Token expired - retry required")`, not a "maximum retries
exceeded" error. -/
theorem C1_attempt_ceiling_then_failure :
    (∀ (env : PipelineEnv) (url : String),
      env.refresh_token = some "session_based" →
      (∀ n, (env.response n).status_code = 401) →
      (∀ n, env.refreshExc n = none) →
      (∀ n, env.ensureExc n = none) →
      (get_req env url).attempts = [0, 1, 2, 3, 4] ∧
        (get_req env url).result = .error (.apiError "Token expired - retry required"))
    ∧ (∀ (env : PipelineEnv) (url : String),
      env.is_session_based = false →
      (∀ n, (env.response n).status_code = 401) →
      (∀ n, env.refreshExc n = none) →
      (∀ n, env.ensureExc n = none) →
      (get_req env url).attempts = [0, 1] ∧
        (get_req env url).result = .error (.apiError "Token expired - retry required")) := by
  constructor
  · intro env url hmode h401 href hens
    rw [all401_session_run env url hmode h401 href hens]
    exact ⟨rfl, rfl⟩
  · intro env url hmode h401 href hens
    rw [all401_oauth_run env url hmode h401 href hens]
    exact ⟨rfl, rfl⟩

/-- C1 witness: the theorem applied to the two concrete all-401
environments. -/
theorem C1_attempt_ceiling_then_failure_witness :
    ((get_req all401_session_env "https://example.com").attempts = [0, 1, 2, 3, 4] ∧
      (get_req all401_session_env "https://example.com").result
        = .error (.apiError "Token expired - retry required"))
    ∧ ((get_req all401_oauth_env "https://example.com").attempts = [0, 1] ∧
      (get_req all401_oauth_env "https://example.com").result
        = .error (.apiError "Token expired - retry required")) :=
  ⟨C1_attempt_ceiling_then_failure.1 all401_session_env "https://example.com" rfl
      (fun _ => rfl) (fun _ => rfl) (fun _ => rfl),
    C1_attempt_ceiling_then_failure.2 all401_oauth_env "https://example.com" (by decide)
      (fun _ => rfl) (fun _ => rfl) (fun _ => rfl)⟩

/-- C1 counterexample: after the session-cookie-mode ceiling of five
all-401 attempts the pipeline re-raises the token-expired `APIError`;
it does not raise the claimed fatal "maximum retries exceeded" error
carrying the URL. -/
theorem C1_counterexample :
    (get_req all401_session_env "https://example.com").result
      = .error (.apiError "Token expired - retry required")
    ∧ (get_req all401_session_env "https://example.com").result
      ≠ .error (.apiError
        "Maximum retry attempts (5) exceeded for https://example.com") := by
  have h := all401_session_run all401_session_env "https://example.com" rfl
    (fun _ => rfl) (fun _ => rfl) (fun _ => rfl)
  rw [h]
  refine ⟨rfl, fun hc => ?_⟩
  simp only [Except.error.injEq, ApiException.apiError.injEq] at hc
  exact absurd hc (by decide)

/-- C4 counterexample helper facts are shared with the claim theorem
through `all401_oauth_run`/`all401_session_run`.  C4: amended — the
backoff delay before the (attempt+1)-th physical attempt is exactly
`5 + 5*attempt` seconds in session-cookie-mode (5, 10, 15, 20 over the
four possible retries) and exactly `0.1 * 2^attempt` seconds in
credential-token-mode, where only the single 0.1 s delay is reachable
because that mode permits one retry. -/
theorem C4_backoff_delays :
    (∀ rc : Nat, retry_delay true rc = 5 + 5 * rc)
    ∧ (∀ rc : Nat, retry_delay false rc = (1 / 10) * 2 ^ rc)
    ∧ (∀ (env : PipelineEnv) (url : String),
      env.refresh_token = some "session_based" →
      (∀ n, (env.response n).status_code = 401) →
      (∀ n, env.refreshExc n = none) →
      (∀ n, env.ensureExc n = none) →
      (get_req env url).delays = [5, 10, 15, 20])
    ∧ (∀ (env : PipelineEnv) (url : String),
      env.is_session_based = false →
      (∀ n, (env.response n).status_code = 401) →
      (∀ n, env.refreshExc n = none) →
      (∀ n, env.ensureExc n = none) →
      (get_req env url).delays = [1 / 10]) := by
  refine ⟨fun rc => ?_, fun rc => ?_, fun env url hmode h401 href hens => ?_,
    fun env url hmode h401 href hens => ?_⟩
  · simp [retry_delay]; ring
  · simp [retry_delay]
  · rw [all401_session_run env url hmode h401 href hens]
  · rw [all401_oauth_run env url hmode h401 href hens]

/-- C4 witness: the delay-trace clauses applied to the concrete all-401
environments. -/
theorem C4_backoff_delays_witness :
    (get_req all401_session_env "https://example.com").delays = [5, 10, 15, 20]
    ∧ (get_req all401_oauth_env "https://example.com").delays = [1 / 10] :=
  ⟨C4_backoff_delays.2.2.1 all401_session_env "https://example.com" rfl
      (fun _ => rfl) (fun _ => rfl) (fun _ => rfl),
    C4_backoff_delays.2.2.2 all401_oauth_env "https://example.com" (by decide)
      (fun _ => rfl) (fun _ => rfl) (fun _ => rfl)⟩

/-- C4 counterexample: in credential-token-mode the maximal run (all
attempts 401) sleeps exactly once, for 0.1 s; the claimed second delay
of 0.2 s never occurs. -/
theorem C4_counterexample :
    (get_req all401_oauth_env "https://example.com").delays = [1 / 10]
    ∧ (get_req all401_oauth_env "https://example.com").delays ≠ [1 / 10, 1 / 5]
    ∧ (1 / 5 : ℚ) ∉ (get_req all401_oauth_env "https://example.com").delays := by
  have h := all401_oauth_run all401_oauth_env "https://example.com" (by decide)
    (fun _ => rfl) (fun _ => rfl) (fun _ => rfl)
  rw [h]
  refine ⟨rfl, by simp, by norm_num⟩

/-- A successful 200 response used by the concrete redirect
environments. -/
def resp200 : HttpResponse :=
  { status_code := 200, location := none, body := some (.obj []), text := "ok" }

/-- Environment whose first attempt is redirected (307) to the sign-out
/ TokenExpired target and whose second attempt succeeds. -/
def redirect_then_ok_env : PipelineEnv :=
  { refresh_token := some "session_based",
    response := fun n =>
      if n = 0 then
        { status_code := 307,
          location := some "https://www.fortum.com/sign-out?reason=TokenExpired",
          body := none, text := "" }
      else resp200,
    refreshExc := fun _ => none, ensureExc := fun _ => none }

/-- Environment whose first attempt is redirected (307) to an unrelated
target. -/
def redirect_other_env : PipelineEnv :=
  { refresh_token := some "session_based",
    response := fun _ =>
      { status_code := 307, location := some "https://www.fortum.com/landing",
        body := none, text := "" },
    refreshExc := fun _ => none, ensureExc := fun _ => none }

/-- Every auth mode admits at least one retry and at least two
attempts. -/
theorem pipeline_min_ceilings (env : PipelineEnv) :
    0 < env.max_retries_for_token_error ∧ 1 < env.max_retries := by
  unfold PipelineEnv.max_retries_for_token_error PipelineEnv.max_retries
  constructor <;> split <;> norm_num

/-- C6: a 307 whose Location contains both "sign-out" and "TokenExpired"
raises the token-expired retry signal and triggers exactly one retry
cycle (a second physical attempt, which is returned on success); a 307
to any other Location fails immediately with the fatal
unexpected-redirect `APIError` after a single attempt. -/
theorem C6_redirect_handling :
    (∀ loc, strContains loc "sign-out" = true → strContains loc "TokenExpired" = true →
      handle_redirect_response loc = .apiError TOKEN_EXPIRED_RETRY_MSG)
    ∧ (∀ loc, (strContains loc "sign-out" && strContains loc "TokenExpired") = false →
      handle_redirect_response loc = .apiError ("Unexpected redirect to: " ++ loc))
    ∧ (∀ (env : PipelineEnv) (url : String) (loc0 : String),
      (env.response 0).status_code = 307 →
      (env.response 0).location = some loc0 →
      strContains loc0 "sign-out" = true →
      strContains loc0 "TokenExpired" = true →
      (env.response 1).status_code = 200 →
      (env.response 1).text ≠ "" →
      (∀ n, env.ensureExc n = none) →
      (get_req env url).attempts = [0, 1]
        ∧ (get_req env url).result = .ok (env.response 1))
    ∧ (∀ (env : PipelineEnv) (url : String) (loc0 : String),
      (env.response 0).status_code = 307 →
      (env.response 0).location = some loc0 →
      (strContains loc0 "sign-out" && strContains loc0 "TokenExpired") = false →
      (∀ n, env.ensureExc n = none) →
      (get_req env url).attempts = [0]
        ∧ (get_req env url).result
          = .error (.apiError ("Unexpected redirect to: " ++ loc0))) := by
  refine ⟨fun loc h1 h2 => ?_, fun loc h => ?_,
    fun env url loc0 h0 hloc hso hte h1 ht1 hens => ?_,
    fun env url loc0 h0 hloc hmatch hens => ?_⟩
  · simp [handle_redirect_response, h1, h2]
  · simp [handle_redirect_response, h]
  · obtain ⟨hm0, hmax1⟩ := pipeline_min_ceilings env
    have hr0 : handle_response (env.refreshExc 0) (env.response 0)
        = .error (.api (.apiError TOKEN_EXPIRED_RETRY_MSG)) := by
      rw [handle_response_307 _ _ h0, hloc]
      simp [handle_redirect_response, hso, hte]
    have hr1 : handle_response (env.refreshExc 1) (env.response 1)
        = .ok (env.response 1) := handle_response_200 _ _ h1 ht1
    have hA : get_req_aux env url 1 = ⟨[1], [], .ok (env.response 1)⟩ :=
      get_req_aux_ok env url 1 _ hmax1 (hens 1) hr1
    have hB : get_req_aux env url 0
        = ⟨[0, 1], [retry_delay env.is_session_based 0], .ok (env.response 1)⟩ := by
      rw [get_req_aux_retry env url 0 _ (by omega) (hens 0) hr0 rfl hm0, hA]
    rw [get_req, hB]
    exact ⟨rfl, rfl⟩
  · obtain ⟨-, hmax1⟩ := pipeline_min_ceilings env
    have hr0 : handle_response (env.refreshExc 0) (env.response 0)
        = .error (.api (.apiError ("Unexpected redirect to: " ++ loc0))) := by
      rw [handle_response_307 _ _ h0, hloc]
      simp [handle_redirect_response, hmatch]
    have hB : get_req_aux env url 0
        = ⟨[0], [], .error (.apiError ("Unexpected redirect to: " ++ loc0))⟩ := by
      apply get_req_aux_stop env url 0 _ (by omega) (hens 0) hr0
      rintro ⟨hmsg, -⟩
      exact unexpected_redirect_ne_token loc0 hmsg
    rw [get_req, hB]
    exact ⟨rfl, rfl⟩

/-- C6 witness: the two pipeline clauses applied to the concrete
redirect environments. -/
theorem C6_redirect_handling_witness :
    ((get_req redirect_then_ok_env "https://u").attempts = [0, 1]
      ∧ (get_req redirect_then_ok_env "https://u").result
        = .ok (redirect_then_ok_env.response 1))
    ∧ ((get_req redirect_other_env "https://u").attempts = [0]
      ∧ (get_req redirect_other_env "https://u").result
        = .error (.apiError
          ("Unexpected redirect to: " ++ "https://www.fortum.com/landing"))) :=
  ⟨C6_redirect_handling.2.2.1 redirect_then_ok_env "https://u"
      "https://www.fortum.com/sign-out?reason=TokenExpired" rfl rfl (by decide)
      (by decide) rfl (by decide) (fun _ => rfl),
    C6_redirect_handling.2.2.2 redirect_other_env "https://u"
      "https://www.fortum.com/landing" rfl rfl (by decide) (fun _ => rfl)⟩

/-- Any cookie name outside the fixed SSO set routes to the main site
domain. -/
theorem cookie_default (name : String) (h1 : name ≠ "amlbcookie")
    (h2 : name ≠ "18dddeef3f61363") : get_cookie_domain name = "www.fortum.com" := by
  have hb : (name == "amlbcookie" || name == "18dddeef3f61363") = false := by
    simp [h1, h2]
  simp [get_cookie_domain, hb]

/-- C8: the cookie domain router sends "amlbcookie" to
".sso.fortum.com"; every security-prefixed name and the locale marker,
and in fact every name outside the fixed SSO set, go to
"www.fortum.com". -/
theorem C8_cookie_domain_routing :
    get_cookie_domain "amlbcookie" = ".sso.fortum.com"
    ∧ (∀ name, (strStartsWith name "__Host-" = true
        ∨ strStartsWith name "__Secure-" = true ∨ name = "NEXT_LOCALE") →
      get_cookie_domain name = "www.fortum.com")
    ∧ (∀ name, name ≠ "amlbcookie" → name ≠ "18dddeef3f61363" →
      get_cookie_domain name = "www.fortum.com") := by
  refine ⟨rfl, fun name h => ?_, fun name h1 h2 => cookie_default name h1 h2⟩
  have h1 : name ≠ "amlbcookie" := by
    rintro rfl
    rcases h with h | h | h <;> revert h <;> decide
  have h2 : name ≠ "18dddeef3f61363" := by
    rintro rfl
    rcases h with h | h | h <;> revert h <;> decide
  exact cookie_default name h1 h2

/-- C8 witness: the router evaluated on a security-prefixed name through
the theorem. -/
theorem C8_cookie_domain_routing_witness :
    get_cookie_domain "__Secure-xyz" = "www.fortum.com" :=
  C8_cookie_domain_routing.2.1 "__Secure-xyz" (Or.inr (Or.inl (by decide)))

/-- C10: every locale other than "SV" and "FI" makes
`get_fortum_base_url`, all URL builders derived from it, and
`get_cost_unit` raise `ValueError("Unsupported locale: ...")`; for "SV"
and "FI" they all return normally. -/
theorem C10_locale_support :
    (∀ locale, locale ≠ "SV" → locale ≠ "FI" →
      get_fortum_base_url locale = .error ("Unsupported locale: " ++ locale)
      ∧ get_api_base_url locale = .error ("Unsupported locale: " ++ locale)
      ∧ get_trpc_base_url locale = .error ("Unsupported locale: " ++ locale)
      ∧ get_session_url locale = .error ("Unsupported locale: " ++ locale)
      ∧ get_time_series_base_url locale = .error ("Unsupported locale: " ++ locale)
      ∧ get_cost_unit locale = .error ("Unsupported locale: " ++ locale)
      ∧ (∀ mps f t r, get_time_series_url locale mps f t r
          = .error ("Unsupported locale: " ++ locale)))
    ∧ ((get_fortum_base_url "SV").isOk = true ∧ (get_fortum_base_url "FI").isOk = true
      ∧ (get_api_base_url "SV").isOk = true ∧ (get_api_base_url "FI").isOk = true
      ∧ (get_trpc_base_url "SV").isOk = true ∧ (get_trpc_base_url "FI").isOk = true
      ∧ (get_session_url "SV").isOk = true ∧ (get_session_url "FI").isOk = true
      ∧ (get_time_series_base_url "SV").isOk = true
      ∧ (get_time_series_base_url "FI").isOk = true
      ∧ (get_cost_unit "SV").isOk = true ∧ (get_cost_unit "FI").isOk = true
      ∧ (∀ mps f t r, (get_time_series_url "SV" mps f t r).isOk = true
          ∧ (get_time_series_url "FI" mps f t r).isOk = true)) := by
  constructor
  · intro locale h1 h2
    have hb : get_fortum_base_url locale = .error ("Unsupported locale: " ++ locale) := by
      simp [get_fortum_base_url, h1, h2]
    refine ⟨hb, ?_, ?_, ?_, ?_, ?_, fun mps f t r => ?_⟩
    · simp only [get_api_base_url, hb]; rfl
    · simp only [get_trpc_base_url, get_api_base_url, hb]; rfl
    · simp only [get_session_url, get_api_base_url, hb]; rfl
    · simp only [get_time_series_base_url, get_trpc_base_url, get_api_base_url, hb]; rfl
    · simp [get_cost_unit, h1, h2]
    · simp only [get_time_series_url, get_time_series_base_url, get_trpc_base_url,
        get_api_base_url, hb]; rfl
  · refine ⟨rfl, rfl, rfl, rfl, rfl, rfl, rfl, rfl, rfl, rfl, rfl, rfl,
      fun mps f t r => ⟨?_, ?_⟩⟩
    · have hb : get_time_series_base_url "SV"
          = .ok "https://www.fortum.com/se/el/api/trpc/loggedIn.timeSeries.listTimeSeries" :=
        rfl
      simp [get_time_series_url, hb, Except.isOk, Except.toBool, Except.map]
    · have hb : get_time_series_base_url "FI"
          = .ok "https://www.fortum.com/fi/sahkoa/api/trpc/loggedIn.timeSeries.listTimeSeries" :=
        rfl
      simp [get_time_series_url, hb, Except.isOk, Except.toBool, Except.map]

/-- C10 witness: the guard applied to the unsupported locale "DE" and
the totality clause applied to concrete arguments. -/
theorem C10_locale_support_witness :
    get_fortum_base_url "DE" = .error ("Unsupported locale: " ++ "DE")
    ∧ get_time_series_url "DE" ["mp"] ⟨0, 0⟩ ⟨0, 0⟩ "MONTH"
      = .error ("Unsupported locale: " ++ "DE")
    ∧ (get_time_series_url "SV" ["mp"] ⟨0, 0⟩ ⟨0, 0⟩ "MONTH").isOk = true :=
  ⟨(C10_locale_support.1 "DE" (by decide) (by decide)).1,
    (C10_locale_support.1 "DE" (by decide) (by decide)).2.2.2.2.2.2 ["mp"] ⟨0, 0⟩ ⟨0, 0⟩
      "MONTH",
    ((C10_locale_support.2.2.2.2.2.2.2.2.2.2.2.2.2 ["mp"] ⟨0, 0⟩ ⟨0, 0⟩ "MONTH").1)⟩

/-- C9: whenever the Token Lifecycle Gate decides renewal is needed, a
real (non-empty, non-sentinel) refresh token leads to a refresh attempt
with fallback to full re-authentication on failure, and the absence of a
real refresh token (session-cookie-mode) leads to full
re-authentication with the refresh-only operation never attempted. -/
theorem C9_token_lifecycle_gate :
    ∀ (st : AuthClientState) (proactive : Bool),
      ((proactive && st.needs_renewal) || st.is_token_expired) = true →
      ((pyTruthyStr st.refresh_token
          && (st.refresh_token != some "session_based")) = true →
        ensure_valid_token st proactive
          = (if st.refresh_fails then [.refreshAccessToken, .authenticate]
            else [.refreshAccessToken]))
      ∧ ((pyTruthyStr st.refresh_token
          && (st.refresh_token != some "session_based")) = false →
        ensure_valid_token st proactive = [.authenticate]
          ∧ AuthOp.refreshAccessToken ∉ ensure_valid_token st proactive) := by
  intro st proactive hneed
  have hnr : (if proactive && st.needs_renewal then true
      else if st.is_token_expired then true else false) = true := by
    rcases Bool.or_eq_true _ _ |>.mp hneed with h | h <;> simp [h]
  constructor
  · intro hreal
    simp only [ensure_valid_token, hnr, if_true, hreal]
  · intro hsess
    have h : ensure_valid_token st proactive = [.authenticate] := by
      simp only [ensure_valid_token, hnr, if_true, hsess, Bool.false_eq_true,
        if_false]
    exact ⟨h, by rw [h]; simp⟩

/-- C9 witness: the gate applied to a credential-token state needing
renewal and to a session-cookie state with an expired token. -/
theorem C9_token_lifecycle_gate_witness :
    ensure_valid_token ⟨some "real-token", true, false, false⟩ true
      = [.refreshAccessToken]
    ∧ ensure_valid_token ⟨some "session_based", false, true, false⟩ true
      = [.authenticate]
    ∧ AuthOp.refreshAccessToken
      ∉ ensure_valid_token ⟨some "session_based", false, true, false⟩ true := by
  refine ⟨?_, ?_, ?_⟩
  · have h := (C9_token_lifecycle_gate ⟨some "real-token", true, false, false⟩ true
      (by decide)).1 (by decide)
    simpa using h
  · exact ((C9_token_lifecycle_gate ⟨some "session_based", false, true, false⟩ true
      (by decide)).2 (by decide)).1
  · exact ((C9_token_lifecycle_gate ⟨some "session_based", false, true, false⟩ true
      (by decide)).2 (by decide)).2

/-- C2: the decoder's concrete behaviours — envelope, plain object,
empty list, unparseable body — and, amended, the general rule: a
non-empty list whose first object element carries the full
`result.data.json` path yields the nested value; a plain object is
returned as-is; a non-empty list whose first object element lacks the
`result` key, or whose `result` object lacks the `data` key, yields its
first element (a first element whose `result.data` exists but lacks the
`json` key instead raises malformed-response). -/
theorem C2_trpc_decoder :
    parse_trpc_response
        (some (.arr [.obj [("result", .obj [("data", .obj [("json",
          .obj [("a", .num 1)])])])]]))
      = .ok (.obj [("a", .num 1)])
    ∧ parse_trpc_response (some (.obj [("a", .num 1)])) = .ok (.obj [("a", .num 1)])
    ∧ parse_trpc_response (some (.arr [])) = .ok (.obj [])
    ∧ parse_trpc_response none = .error (.invalidResponse .valueError)
    ∧ (∀ (fields fields2 fields3 : List (String × Json)) (v : Json) (rest : List Json),
      lookupKey fields "result" = some (.obj fields2) →
      lookupKey fields2 "data" = some (.obj fields3) →
      lookupKey fields3 "json" = some v →
      parse_trpc_response (some (.arr (.obj fields :: rest))) = .ok v)
    ∧ (∀ fields : List (String × Json),
      parse_trpc_response (some (.obj fields)) = .ok (.obj fields))
    ∧ (∀ (fields : List (String × Json)) (rest : List Json),
      fields.any (fun p => p.1 == "result") = false →
      parse_trpc_response (some (.arr (.obj fields :: rest))) = .ok (.obj fields))
    ∧ (∀ (fields fields2 : List (String × Json)) (rest : List Json),
      lookupKey fields "result" = some (.obj fields2) →
      fields2.any (fun p => p.1 == "data") = false →
      parse_trpc_response (some (.arr (.obj fields :: rest))) = .ok (.obj fields)) := by
  refine ⟨rfl, rfl, rfl, rfl,
    fun fields fields2 fields3 v rest h1 h2 h3 => ?_,
    fun fields => rfl,
    fun fields rest h1 => ?_,
    fun fields fields2 rest h1 h2 => ?_⟩
  · have c1 : pyContains (.obj fields) "result" = some true := by
      simp [pyContains, lookup_any h1]
    have g1 : pyGetItemStr (.obj fields) "result" = .ok (.obj fields2) := by
      simp [pyGetItemStr, h1]
    have c2 : pyContains (.obj fields2) "data" = some true := by
      simp [pyContains, lookup_any h2]
    have g2 : pyGetItemStr (.obj fields2) "data" = .ok (.obj fields3) := by
      simp [pyGetItemStr, h2]
    have g3 : pyGetItemStr (.obj fields3) "json" = .ok v := by
      simp [pyGetItemStr, h3]
    simp [parse_trpc_response, parse_trpc_core, c1, g1, c2, g2, g3]
  · have c1 : pyContains (.obj fields) "result" = some false := by
      simp [pyContains, h1]
    simp [parse_trpc_response, parse_trpc_core, c1, trpcFallback]
  · have c1 : pyContains (.obj fields) "result" = some true := by
      simp [pyContains, lookup_any h1]
    have g1 : pyGetItemStr (.obj fields) "result" = .ok (.obj fields2) := by
      simp [pyGetItemStr, h1]
    have c2 : pyContains (.obj fields2) "data" = some false := by
      simp [pyContains, h2]
    simp [parse_trpc_response, parse_trpc_core, c1, g1, c2, trpcFallback]

/-- C2 witness: the general envelope clause applied to the concrete
envelope body. -/
theorem C2_trpc_decoder_witness :
    parse_trpc_response
        (some (.arr [.obj [("result", .obj [("data", .obj [("json", .num 7)])])]]))
      = .ok (.num 7) :=
  C2_trpc_decoder.2.2.2.2.1 [("result", .obj [("data", .obj [("json", .num 7)])])]
    [("data", .obj [("json", .num 7)])] [("json", .num 7)] (.num 7) [] rfl rfl rfl

/-- C2 counterexample: a non-empty list without the full nesting —
`[⟨"result": ⟨"data": ⟨⟩⟩⟩]` — does not yield its first element as the
claim states; the missing `json` key raises `KeyError`, wrapped as a
malformed-response `InvalidResponseError`. -/
theorem C2_counterexample :
    parse_trpc_response (some (.arr [.obj [("result", .obj [("data", .obj [])])]]))
      = .error (.invalidResponse .keyError)
    ∧ parse_trpc_response (some (.arr [.obj [("result", .obj [("data", .obj [])])]]))
      ≠ .ok (.obj [("result", .obj [("data", .obj [])])]) :=
  ⟨rfl, fun h => by rw [show parse_trpc_response
      (some (.arr [.obj [("result", .obj [("data", .obj [])])]]))
      = .error (.invalidResponse .keyError) from rfl] at h; exact Except.noConfusion h⟩

/-- Every repository exception raised inside the 500 handler's `try`
block is a plain `APIError`. -/
theorem server_core_api_msg (body : Option Json) (e : ApiException)
    (h : handle_server_error_core body = .raisedApi e) : ∃ s, e = .apiError s := by
  unfold handle_server_error_core at h
  dsimp only at h
  repeat' split at h
  all_goals try exact ServerCore.noConfusion h
  all_goals (injection h with h2; exact ⟨_, h2.symm⟩)

/-- The 500 handler never raises a malformed-response error: every
outcome is either an `APIError` or an uncaught Python builtin
exception. -/
theorem server_error_never_invalid (body : Option Json) (m : String) :
    handle_server_error_response body ≠ .api (.invalidResponse m) := by
  intro h
  rcases hc : handle_server_error_core body with e | e | -
  · obtain ⟨s, rfl⟩ := server_core_api_msg body e hc
    simp [handle_server_error_response, hc] at h
  · simp only [handle_server_error_response, hc] at h
    cases e <;> simp_all
  · simp [handle_server_error_response, hc] at h

/-- C7: amended — a 500 whose body decodes to a batched-RPC error
envelope with a string message raises the reduce-date-range
transient-server error for the `INTERNAL_SERVER_ERROR` sentinel and
`"Server error: <message>"` otherwise; an unparseable body, a non-list
body, an empty list, or a first object element lacking the `error` (or
nested `json`) key falls through to the generic transient-server error;
a first element on which the envelope checks raise an uncaught
`TypeError` escapes the handler instead (the pipeline wraps it as
`APIError("GET request failed")`); no 500 ever produces a
malformed-response error. -/
theorem C7_server_error_classification :
    (∀ (fields fields2 fields3 : List (String × Json)) (rest : List Json) (m : String),
      lookupKey fields "error" = some (.obj fields2) →
      lookupKey fields2 "json" = some (.obj fields3) →
      lookupKey fields3 "message" = some (.str m) →
      handle_server_error_response (some (.arr (.obj fields :: rest)))
        = .api (.apiError (if m = "INTERNAL_SERVER_ERROR" then
            "Server error - try reducing date range or changing resolution"
          else "Server error: " ++ m)))
    ∧ handle_server_error_response none
      = .api (.apiError "Server internal error - try again later")
    ∧ handle_server_error_response (some (.arr []))
      = .api (.apiError "Server internal error - try again later")
    ∧ (∀ fields : List (String × Json), handle_server_error_response (some (.obj fields))
      = .api (.apiError "Server internal error - try again later"))
    ∧ (∀ (fields : List (String × Json)) (rest : List Json),
      fields.any (fun p => p.1 == "error") = false →
      handle_server_error_response (some (.arr (.obj fields :: rest)))
        = .api (.apiError "Server internal error - try again later"))
    ∧ (∀ (fields fields2 : List (String × Json)) (rest : List Json),
      lookupKey fields "error" = some (.obj fields2) →
      fields2.any (fun p => p.1 == "json") = false →
      handle_server_error_response (some (.arr (.obj fields :: rest)))
        = .api (.apiError "Server internal error - try again later"))
    ∧ (∀ (body : Option Json) (m : String),
      handle_server_error_response body ≠ .api (.invalidResponse m)) := by
  refine ⟨fun fields fields2 fields3 rest m h1 h2 h3 => ?_, rfl, rfl, fun fields => rfl,
    fun fields rest h1 => ?_, fun fields fields2 rest h1 h2 => ?_,
    server_error_never_invalid⟩
  · have c1 : pyContains (.obj fields) "error" = some true := by
      simp [pyContains, lookup_any h1]
    have g1 : pyGetItemStr (.obj fields) "error" = .ok (.obj fields2) := by
      simp [pyGetItemStr, h1]
    have c2 : pyContains (.obj fields2) "json" = some true := by
      simp [pyContains, lookup_any h2]
    have g2 : pyGetItemStr (.obj fields2) "json" = .ok (.obj fields3) := by
      simp [pyGetItemStr, h2]
    simp only [lookupKey] at h3
    by_cases hm : m = "INTERNAL_SERVER_ERROR" <;>
      simp [handle_server_error_response, handle_server_error_core, c1, g1, c2, g2,
        lookupKey, h3, pyEqStr, hm]
  · have c1 : pyContains (.obj fields) "error" = some false := by
      simp [pyContains, h1]
    simp [handle_server_error_response, handle_server_error_core, c1]
  · have c1 : pyContains (.obj fields) "error" = some true := by
      simp [pyContains, lookup_any h1]
    have g1 : pyGetItemStr (.obj fields) "error" = .ok (.obj fields2) := by
      simp [pyGetItemStr, h1]
    have c2 : pyContains (.obj fields2) "json" = some false := by
      simp [pyContains, h2]
    simp [handle_server_error_response, handle_server_error_core, c1, g1, c2]

/-- C7 witness: the envelope clause applied to the sentinel message and
to an ordinary message, and the fall-through clause applied to a body
without the `error` key. -/
theorem C7_server_error_classification_witness :
    handle_server_error_response
        (some (.arr [.obj [("error", .obj [("json", .obj
          [("message", .str "INTERNAL_SERVER_ERROR"), ("code", .num (-32603))])])]]))
      = .api (.apiError "Server error - try reducing date range or changing resolution")
    ∧ handle_server_error_response
        (some (.arr [.obj [("error", .obj [("json", .obj
          [("message", .str "boom")])])]]))
      = .api (.apiError "Server error: boom")
    ∧ handle_server_error_response (some (.arr [.obj [("other", .num 1)]]))
      = .api (.apiError "Server internal error - try again later") := by
  refine ⟨?_, ?_, ?_⟩
  · have h := C7_server_error_classification.1
      [("error", .obj [("json", .obj [("message", .str "INTERNAL_SERVER_ERROR"),
        ("code", .num (-32603))])])]
      [("json", .obj [("message", .str "INTERNAL_SERVER_ERROR"),
        ("code", .num (-32603))])]
      [("message", .str "INTERNAL_SERVER_ERROR"), ("code", .num (-32603))]
      [] "INTERNAL_SERVER_ERROR" rfl rfl rfl
    simpa using h
  · have h := C7_server_error_classification.1
      [("error", .obj [("json", .obj [("message", .str "boom")])])]
      [("json", .obj [("message", .str "boom")])]
      [("message", .str "boom")] [] "boom" rfl rfl rfl
    simpa using h
  · exact C7_server_error_classification.2.2.2.2.1 [("other", .num 1)] [] rfl

/-- C7 counterexample: for the 500 body `[5]` the membership test
`"error" in 5` raises an uncaught `TypeError`; the handler does not
produce the claimed generic transient-server `APIError`, and the
pipeline wraps the escaping exception as `APIError("GET request
failed")`. -/
theorem C7_counterexample :
    handle_server_error_response (some (.arr [.num 5])) = .py .typeError
    ∧ handle_server_error_response (some (.arr [.num 5]))
      ≠ .api (.apiError "Server internal error - try again later") := by
  refine ⟨rfl, fun h => ?_⟩
  rw [show handle_server_error_response (some (.arr [.num 5])) = .py .typeError
    from rfl] at h
  exact RaisedExc.noConfusion h

/-- C3: a tier-1 failure whose message indicates a server error or
suggests reducing the date range sends the executor to a last-30-days
request, then (on a further failure) to a last-7-days request whose
outcome is returned; a tier-1 failure without that indication
propagates immediately, and a tier-1 success never enters the ladder. -/
theorem C3_degradation_ladder :
    ∀ (α : Type) (env : TsEnv α) (now : PyDateTime) (mps : List String)
      (from_date? to_date? : Option PyDateTime) (res : String),
      (∀ v, env.fetch (tier1_request now mps from_date? to_date? res) = .ok v →
        get_time_series_data env now mps from_date? to_date? res
          = ([tier1_request now mps from_date? to_date? res], .ok v))
      ∧ (∀ e, env.fetch (tier1_request now mps from_date? to_date? res) = .error e →
        server_error_trigger e.msg = false →
        get_time_series_data env now mps from_date? to_date? res
          = ([tier1_request now mps from_date? to_date? res], .error e))
      ∧ (∀ e v, env.fetch (tier1_request now mps from_date? to_date? res) = .error e →
        server_error_trigger e.msg = true →
        env.fetch (tier2_request now mps res) = .ok v →
        get_time_series_data env now mps from_date? to_date? res
          = ([tier1_request now mps from_date? to_date? res,
              tier2_request now mps res], .ok v))
      ∧ (∀ e e2, env.fetch (tier1_request now mps from_date? to_date? res) = .error e →
        server_error_trigger e.msg = true →
        env.fetch (tier2_request now mps res) = .error e2 →
        get_time_series_data env now mps from_date? to_date? res
          = ([tier1_request now mps from_date? to_date? res, tier2_request now mps res,
              tier3_request now mps res], env.fetch (tier3_request now mps res))) := by
  intro α env now mps from_date? to_date? res
  refine ⟨fun v h1 => ?_, fun e h1 htrig => ?_, fun e v h1 htrig h2 => ?_,
    fun e e2 h1 htrig h2 => ?_⟩
  · simp [get_time_series_data, h1]
  · simp [get_time_series_data, h1, htrig]
  · simp [get_time_series_data, h1, htrig, h2]
  · simp [get_time_series_data, h1, htrig, h2]

/-- The instant used by the concrete executor environments:
2026-10-12 12:34:56. -/
def now0 : PyDateTime := ⟨days_from_civil 2026 10 12, 45296⟩

/-- Executor environment that fails with server errors at the tier-1 and
tier-2 ranges and succeeds at the last-7-days range. -/
def ladder_env : TsEnv Nat :=
  { fetch := fun req =>
      if req.from_date = now0.subDays 7 then .ok 7
      else if req.from_date = now0.subDays 30 then
        .error (.apiError "Server error: still failing")
      else
        .error (.apiError
          "Server error - try reducing date range or changing resolution") }

/-- C3 witness: the full three-tier descent on the concrete
environment. -/
theorem C3_degradation_ladder_witness :
    get_time_series_data ladder_env now0 ["mp"] none none "MONTH"
      = ([tier1_request now0 ["mp"] none none "MONTH",
          tier2_request now0 ["mp"] "MONTH", tier3_request now0 ["mp"] "MONTH"],
          .ok 7) := by
  have h := (C3_degradation_ladder Nat ladder_env now0 ["mp"] none none "MONTH").2.2.2
    (.apiError "Server error - try reducing date range or changing resolution")
    (.apiError "Server error: still failing") rfl (by decide) rfl
  rw [h, show ladder_env.fetch (tier3_request now0 ["mp"] "MONTH") = .ok 7 from rfl]

/-- C5: amended — when `from_date` is unspecified the executor starts
the requested range at the first day of the *current* month minus 90
days (`datetime.now().replace(day=1) - timedelta(days=90)`), which is
generally not the first day of the month 90 days ago; when `to_date` is
unspecified it ends the range at the current time. -/
theorem C5_default_range :
    (∀ (now : PyDateTime) (mps : List String) (t? : Option PyDateTime) (res : String),
      (tier1_request now mps none t? res).from_date = now.replaceDay1.subDays 90)
    ∧ (∀ (now : PyDateTime) (mps : List String) (f? : Option PyDateTime) (res : String),
      (tier1_request now mps f? none res).to_date = now)
    ∧ (∀ (α : Type) (env : TsEnv α) (now : PyDateTime) (mps : List String)
        (t? : Option PyDateTime) (res : String),
      (get_time_series_data env now mps none t? res).1.head?
        = some (tier1_request now mps none t? res))
    ∧ civil_from_days
        ((⟨days_from_civil 2026 10 12, 0⟩ : PyDateTime).replaceDay1.subDays 90).days
      = (2026, 7, 3) := by
  refine ⟨fun now mps t? res => rfl, fun now mps f? res => rfl,
    fun α env now mps t? res => ?_, by decide⟩
  rcases h : env.fetch (tier1_request now mps none t? res) with e | v
  · by_cases ht : server_error_trigger e.msg
    · rcases h2 : env.fetch (tier2_request now mps res) with e2 | v2 <;>
        simp [get_time_series_data, h, ht, h2]
    · simp [get_time_series_data, h, ht]
  · simp [get_time_series_data, h]

/-- C5 counterexample: at `now` = 2026-10-12 the code's default start
date is 2026-07-03, while the first day of the month 90 days ago (the
claimed start, modelled by `spec_default_from_date`) is 2026-07-01. -/
theorem C5_counterexample :
    (tier1_request ⟨days_from_civil 2026 10 12, 0⟩ ["mp"] none none "MONTH").from_date
      ≠ spec_default_from_date ⟨days_from_civil 2026 10 12, 0⟩
    ∧ civil_from_days
        ((tier1_request ⟨days_from_civil 2026 10 12, 0⟩ ["mp"] none none
          "MONTH").from_date).days = (2026, 7, 3)
    ∧ civil_from_days
        ((spec_default_from_date ⟨days_from_civil 2026 10 12, 0⟩).days)
      = (2026, 7, 1) :=
  ⟨by decide, by decide, by decide⟩
